import Mathlib

/-!
Shallow embedding of the video-summarizer backend (`src/backend/main_api.py`,
with the `/download` endpoint also present in `src/main_openai.py`).

The web framework, media decoding, speech-to-text, the summarization model
and PDF rendering are external collaborators; they are modelled by an
explicit environment (`Env`) that says whether each external call succeeds
and what it returns.  The process-wide mutable state (`active_connections`,
the `downloads` directory, the delivered status messages) is modelled by an
explicit state record (`PState`) threaded through the stage functions.
-/

namespace VideoSummarizer

/-- `active_connections : Dict[str, WebSocket]` — modelled as an association
list from task id to a channel identifier (a `Nat` standing for one
WebSocket object).  Python dict semantics (at most one entry per key) are
realised by the overwrite in `openConn`. -/
abbrev Reg := List (String × Nat)

/-- Dict lookup: `active_connections.get(task_id)` / `task_id in active_connections`. -/
def lookupConn (reg : Reg) (tid : String) : Option Nat :=
  match reg with
  | [] => none
  | (k, c) :: rest => if k = tid then some c else lookupConn rest tid

/-- `active_connections[task_id] = websocket` in `websocket_endpoint`:
unconditional overwrite of any existing entry for `task_id`. -/
def openConn (reg : Reg) (tid : String) (c : Nat) : Reg :=
  (tid, c) :: reg.filter (fun p => p.1 ≠ tid)

/-- `active_connections.pop(task_id, None)`: removes the entry for `task_id`
if present, does nothing otherwise (idempotent). -/
def closeConn (reg : Reg) (tid : String) : Reg :=
  reg.filter (fun p => p.1 ≠ tid)

/-- Characters removed by `sanitize_filename`: the regex class `[<>:"/\\|?*]`. -/
def invalidChars : List Char := ['<', '>', ':', '"', '/', '\\', '|', '?', '*']

/-- `sanitize_filename(filename)` from `src/backend/main_api.py`:
`re.sub(r'[<>:"/\\|?*]', '', filename)[:50]`. -/
def sanitize_filename (filename : String) : String :=
  ((filename.data.filter (fun c => ¬ invalidChars.contains c)).take 50).asString

/-- Substring test on character lists (Python's `p in s` for strings):
`p` occurs in `s` iff it is a prefix of some suffix of `s`. -/
def containsSub : List Char → List Char → Bool
  | [], p => p.isPrefixOf []
  | c :: rest, p => p.isPrefixOf (c :: rest) || containsSub rest p

/-- Fuel-driven scanner behind `replaceAll`; one unit of fuel is spent per
examined position, so fuel `s.length` always suffices. -/
def replaceAllFuel (p r : List Char) : Nat → List Char → List Char
  | 0, s => s
  | _ + 1, [] => []
  | fuel + 1, c :: rest =>
    if p ≠ [] ∧ p.isPrefixOf (c :: rest) then
      r ++ replaceAllFuel p r fuel ((c :: rest).drop p.length)
    else
      c :: replaceAllFuel p r fuel rest

/-- Python's `str.replace(p, r)` for a non-empty pattern `p`: replaces every
(leftmost, non-overlapping) occurrence of `p` by `r`. -/
def replaceAll (s p r : List Char) : List Char :=
  replaceAllFuel p r s.length s

/-- `UPLOAD_DIR = "downloads"`. -/
def UPLOAD_DIR : String := "downloads"

/-- `self.video_path = os.path.join(UPLOAD_DIR, sanitized_filename)`. -/
def videoPath (filename : String) : String :=
  UPLOAD_DIR ++ "/" ++ sanitize_filename filename

/-- `self.audio_path = self.video_path.replace(".mp4", ".mp3")`. -/
def audioPath (filename : String) : String :=
  (replaceAll (videoPath filename).data ".mp4".data ".mp3".data).asString

/-- `self.pdf_path = os.path.join(UPLOAD_DIR, f"{task_id}.pdf")`. -/
def pdfPath (tid : String) : String :=
  UPLOAD_DIR ++ "/" ++ tid ++ ".pdf"

/-- What kind of artifact a stage wrote at a storage path. -/
inductive FileKind where
  | video
  | audio
  | pdfDoc
deriving DecidableEq, Repr

/-- A status message delivered over the notification channel:
`{"status": message}` plus an optional `"progress"` field. -/
structure Msg where
  taskId : String
  status : String
  progress : Option Nat
deriving DecidableEq, Repr

/-- The mutable process state visible to the pipeline: the connection
registry, the files on disk under `downloads/` (path with the kind of
content last written there), the status messages actually delivered, and
the names of the stage methods that started executing. -/
structure PState where
  reg : Reg
  files : List (String × FileKind)
  sent : List Msg
  stagesRun : List String
deriving DecidableEq, Repr

/-- Writing a file: last write at a path wins. -/
def putFile (files : List (String × FileKind)) (path : String) (k : FileKind) :
    List (String × FileKind) :=
  (path, k) :: files.filter (fun p => p.1 ≠ path)

/-- The kind of file currently stored at `path`, if any
(`os.path.exists` is `(fileAt files path).isSome`). -/
def fileAt (files : List (String × FileKind)) (path : String) : Option FileKind :=
  match files with
  | [] => none
  | (q, k) :: rest => if q = path then some k else fileAt rest path

/-- Behaviour of the external collaborators for one run: whether each
external call succeeds, the exception text `str(e)` when it fails, and the
values it returns when it succeeds.  `sendOk c` says whether
`send_json` on channel `c` succeeds (`false` = `WebSocketDisconnect` /
`RuntimeError`). -/
structure Env where
  sendOk : Nat → Bool
  saveOk : Bool
  saveErr : String
  extractOk : Bool
  extractErr : String
  transcribeOk : Bool
  transcribeErr : String
  segments : List String
  transcript : String
  summarizeOk : Bool
  summarizeErr : String
  summary : String
  renderOk : Bool
  renderErr : String

/-- `VideoProcessor.send_status`: if the task id has a registered channel,
attempt delivery; a `WebSocketDisconnect`/`RuntimeError` during delivery
removes the registry entry and is swallowed; if no channel is registered
the update is dropped.  Never raises (it is a total function). -/
def send_status (env : Env) (s : PState) (tid status : String)
    (progress : Option Nat) : PState :=
  match lookupConn s.reg tid with
  | none => s
  | some c =>
    if env.sendOk c then
      { s with sent := s.sent ++ [⟨tid, status, progress⟩] }
    else
      { s with reg := closeConn s.reg tid }

/-- Outcome of a stage method: `ok` with the updated state, or `error` with
the `HTTPException` detail string and the state at the time of the raise. -/
inductive StageResult (α : Type) where
  | ok (s : PState) (a : α)
  | error (detail : String) (s : PState)
deriving Repr, DecidableEq

/-- `VideoProcessor.save_uploaded_video`: reports 10, writes the video file,
reports 20; on an I/O failure reports a ❌ message (no progress) and raises
`HTTPException(500, "Failed to save video: ...")`. -/
def save_uploaded_video (env : Env) (tid filename : String) (s : PState) :
    StageResult Unit :=
  let s := { s with stagesRun := s.stagesRun ++ ["save_uploaded_video"] }
  let s := send_status env s tid "Uploading video..." (some 10)
  if env.saveOk then
    let s := { s with files := putFile s.files (videoPath filename) .video }
    .ok (send_status env s tid "✅ Video uploaded successfully." (some 20)) ()
  else
    .error ("Failed to save video: " ++ env.saveErr)
      (send_status env s tid ("❌ Failed to save video: " ++ env.saveErr) none)

/-- `VideoProcessor.extract_audio`: reports 30, writes the audio track at
`audio_path`, reports 50; on a decode failure reports a ❌ message and raises
`HTTPException(500, "Audio extraction failed: ...")`. -/
def extract_audio (env : Env) (tid filename : String) (s : PState) :
    StageResult Unit :=
  let s := { s with stagesRun := s.stagesRun ++ ["extract_audio"] }
  let s := send_status env s tid "Extracting audio from video..." (some 30)
  if env.extractOk then
    let s := { s with files := putFile s.files (audioPath filename) .audio }
    .ok (send_status env s tid "✅ Audio extraction complete." (some 50)) ()
  else
    .error ("Audio extraction failed: " ++ env.extractErr)
      (send_status env s tid ("❌ Audio extraction failed: " ++ env.extractErr) none)

/-- The per-segment progress value inside `transcribe_audio`:
`55 + int((i / total_segments) * 15)` for the `i`-th (0-based) segment. -/
def segProgress (n i : Nat) : Nat := 55 + (i * 15) / n

/-- The loop `for i, segment in enumerate(result["segments"])`: one
`send_status` per segment with the interpolated progress. -/
def transLoop (env : Env) (tid : String) (n : Nat) :
    List String → Nat → PState → PState
  | [], _, s => s
  | seg :: rest, i, s =>
    transLoop env tid n rest (i + 1)
      (send_status env s tid ("📝 Transcribing: " ++ seg.take 50 ++ "...")
        (some (segProgress n i)))

/-- `VideoProcessor.transcribe_audio`: reports 55, transcribes, emits one
interpolated progress message per segment, reports 70 and returns the
transcript text; on an inference failure reports a ❌ message and raises
`HTTPException(500, "Transcription failed: ...")`. -/
def transcribe_audio (env : Env) (tid : String) (s : PState) :
    StageResult String :=
  let s := { s with stagesRun := s.stagesRun ++ ["transcribe_audio"] }
  let s := send_status env s tid "🔄 Transcribing audio with Whisper..." (some 55)
  if env.transcribeOk then
    let s := transLoop env tid env.segments.length env.segments 0 s
    .ok (send_status env s tid "✅ Audio transcription complete." (some 70))
      env.transcript
  else
    .error ("Transcription failed: " ++ env.transcribeErr)
      (send_status env s tid ("❌ Transcription failed: " ++ env.transcribeErr) none)

/-- `VideoProcessor.summarize_text`: reports 80, calls the summarization
service, reports 90 and returns the markdown summary; on an
external-service failure reports a ❌ message and raises
`HTTPException(500, "Summarization failed: ...")`. -/
def summarize_text (env : Env) (tid : String) (s : PState) :
    StageResult String :=
  let s := { s with stagesRun := s.stagesRun ++ ["summarize_text"] }
  let s := send_status env s tid "📄 Generating summary..." (some 80)
  if env.summarizeOk then
    .ok (send_status env s tid "✅ Summary generated." (some 90)) env.summary
  else
    .error ("Summarization failed: " ++ env.summarizeErr)
      (send_status env s tid ("❌ Summarization failed: " ++ env.summarizeErr) none)

/-- `VideoProcessor.save_summary_as_pdf`: reports 95, renders the summary to
`pdf_path`, reports 100; on a rendering failure reports a ❌ message and
raises `HTTPException(500, "PDF generation failed: ...")`. -/
def save_summary_as_pdf (env : Env) (tid : String) (summary_md : String)
    (s : PState) : StageResult Unit :=
  let _ := summary_md
  let s := { s with stagesRun := s.stagesRun ++ ["save_summary_as_pdf"] }
  let s := send_status env s tid "📄 Generating PDF..." (some 95)
  if env.renderOk then
    let s := { s with files := putFile s.files (pdfPath tid) .pdfDoc }
    .ok (send_status env s tid "✅ PDF generation complete." (some 100)) ()
  else
    .error ("PDF generation failed: " ++ env.renderErr)
      (send_status env s tid ("❌ PDF generation failed: " ++ env.renderErr) none)

/-- What the `POST /process_video/` call returns to the submitter:
`{"summary": ..., "pdf": "/download/{task_id}"}` on success,
`{"error": detail}` when a stage's `HTTPException` was caught, or an
uncaught `HTTPException` (status code, detail) for the no-channel guard. -/
inductive ApiResult where
  | ok (summary pdfRef : String)
  | stageError (detail : String)
  | httpError (code : Nat) (detail : String)
deriving DecidableEq, Repr

/-- Everything observable at the moment `process_video` returns: the
response, the process state, the summary handed to `BackgroundTasks`
(rendering still pending), and the transcript/summary values produced. -/
structure ApiOut where
  result : ApiResult
  state : PState
  pendingRender : Option String
  transcript : Option String
  summary : Option String
deriving Repr

/-- The wait loop in `process_video`: 6 in-loop membership checks plus the
final `if task_id not in active_connections` check give a bounded sequence
of observations of the registry (other cooperative tasks may run during
each `asyncio.sleep(0.5)`); the pipeline proceeds with the registry of the
first observation containing the task id, otherwise the guard fires. -/
def awaitChannel : List Reg → String → Option Reg
  | [], _ => none
  | r :: rest, tid =>
    if (lookupConn r tid).isSome then some r else awaitChannel rest tid

/-- `POST /process_video/` (`process_video` in `src/backend/main_api.py`).
`snaps` is the sequence of registry states observed by the wait window's
membership checks; `files0` the initial contents of `downloads/`. -/
def process_video (env : Env) (snaps : List Reg)
    (files0 : List (String × FileKind)) (filename tid : String) : ApiOut :=
  match awaitChannel snaps tid with
  | none =>
    { result := .httpError 400 "No active WebSocket connection for this task."
      state := ⟨[], files0, [], []⟩
      pendingRender := none, transcript := none, summary := none }
  | some reg =>
    let s : PState := ⟨reg, files0, [], []⟩
    match save_uploaded_video env tid filename s with
    | .error d s =>
      { result := .stageError d, state := s
        pendingRender := none, transcript := none, summary := none }
    | .ok s () =>
      match extract_audio env tid filename s with
      | .error d s =>
        { result := .stageError d, state := s
          pendingRender := none, transcript := none, summary := none }
      | .ok s () =>
        match transcribe_audio env tid s with
        | .error d s =>
          { result := .stageError d, state := s
            pendingRender := none, transcript := none, summary := none }
        | .ok s transcript =>
          match summarize_text env tid s with
          | .error d s =>
            { result := .stageError d, state := s
              pendingRender := none, transcript := some transcript
              summary := none }
          | .ok s summary_md =>
            { result := .ok summary_md ("/download/" ++ tid)
              state := s
              pendingRender := some summary_md
              transcript := some transcript
              summary := some summary_md }

/-- Running the detached background task after the response was returned:
`background_tasks.add_task(processor.save_summary_as_pdf, summary_md)`.
A failure there has no caller to report to; only the state survives. -/
def runBackground (env : Env) (tid : String) (o : ApiOut) : PState :=
  match o.pendingRender with
  | none => o.state
  | some md =>
    match save_summary_as_pdf env tid md o.state with
    | .ok s () => s
    | .error _ s => s

/-- What `GET /download/{task_id}` returns. -/
inductive DownloadResult where
  | file (path filename mediaType : String)
  | notFound (code : Nat) (detail : String)
deriving DecidableEq, Repr

/-- `download_pdf` from `src/backend/main_api.py` (identical in
`src/main_openai.py`): 404 if no file exists at `downloads/{task_id}.pdf`,
otherwise a `FileResponse` with `media_type="application/pdf"`. -/
def download_pdf (files : List (String × FileKind)) (tid : String) :
    DownloadResult :=
  if (fileAt files (pdfPath tid)).isSome then
    .file (pdfPath tid) ("summary_" ++ tid ++ ".pdf") "application/pdf"
  else
    .notFound 404 "PDF file not found."

/-- The keys of the registry, used to state the one-entry-per-id invariant. -/
def regWF (reg : Reg) : Prop := (reg.map Prod.fst).Nodup

/-- The progress percentages carried by a message trace, in emission order. -/
def progressSeq (msgs : List Msg) : List Nat := msgs.filterMap Msg.progress

/-- The sub-progress messages the transcription loop sends for the given
segment list, starting at segment index `i` out of `n`. -/
def segMsgs (tid : String) (n : Nat) : List String → Nat → List Msg
  | [], _ => []
  | seg :: rest, i =>
    ⟨tid, "📝 Transcribing: " ++ seg.take 50 ++ "...", some (segProgress n i)⟩
      :: segMsgs tid n rest (i + 1)

section Lemmas

theorem lookupConn_cons (k : String) (c : Nat) (rest : Reg) (tid : String) :
    lookupConn ((k, c) :: rest) tid
      = if k = tid then some c else lookupConn rest tid := rfl

theorem fileAt_cons (q : String) (k : FileKind)
    (rest : List (String × FileKind)) (p : String) :
    fileAt ((q, k) :: rest) p = if q = p then some k else fileAt rest p := rfl

theorem lookupConn_filter_ne (reg : Reg) (tid : String) :
    lookupConn (reg.filter (fun p => p.1 ≠ tid)) tid = none := by
  induction reg with
  | nil => rfl
  | cons hd tl ih =>
    obtain ⟨k, c⟩ := hd
    rw [List.filter_cons]
    by_cases hk : k = tid
    · simpa [hk] using ih
    · simpa [hk, lookupConn_cons] using ih

theorem lookupConn_filter_other (reg : Reg) (tid tid' : String)
    (h : tid' ≠ tid) :
    lookupConn (reg.filter (fun p => p.1 ≠ tid)) tid' = lookupConn reg tid' := by
  have htt : tid ≠ tid' := fun hc => h hc.symm
  induction reg with
  | nil => rfl
  | cons hd tl ih =>
    obtain ⟨k, c⟩ := hd
    rw [List.filter_cons]
    simp only [ne_eq, decide_not] at ih ⊢
    by_cases hk : k = tid
    · simp [hk, lookupConn_cons, htt, ih]
    · by_cases hk' : k = tid' <;> simp [hk, hk', h, lookupConn_cons, ih]

theorem lookupConn_closeConn_self (reg : Reg) (tid : String) :
    lookupConn (closeConn reg tid) tid = none :=
  lookupConn_filter_ne reg tid

theorem closeConn_absent (reg : Reg) (tid : String)
    (h : lookupConn reg tid = none) : closeConn reg tid = reg := by
  induction reg with
  | nil => rfl
  | cons hd tl ih =>
    unfold lookupConn at h
    by_cases hk : hd.1 = tid
    · simp [hk] at h
    · simp only [hk, if_neg] at h
      simp [closeConn, List.filter, hk] at ih ⊢
      exact ih h

theorem closeConn_idem (reg : Reg) (tid : String) :
    closeConn (closeConn reg tid) tid = closeConn reg tid :=
  closeConn_absent _ _ (lookupConn_closeConn_self reg tid)

theorem lookupConn_openConn_self (reg : Reg) (tid : String) (c : Nat) :
    lookupConn (openConn reg tid c) tid = some c := by
  simp [openConn, lookupConn]

theorem lookupConn_openConn_other (reg : Reg) (tid tid' : String) (c : Nat)
    (h : tid' ≠ tid) :
    lookupConn (openConn reg tid c) tid' = lookupConn reg tid' := by
  rw [openConn, lookupConn_cons, if_neg (fun hc => h hc.symm)]
  exact lookupConn_filter_other reg tid tid' h

theorem regWF_openConn (reg : Reg) (tid : String) (c : Nat)
    (h : regWF reg) : regWF (openConn reg tid c) := by
  simp only [regWF, openConn, List.map_cons, List.nodup_cons]
  constructor
  · intro hmem
    rcases List.mem_map.mp hmem with ⟨p, hp, hfst⟩
    have h2 := List.of_mem_filter hp
    simp only [decide_eq_true_eq] at h2
    exact h2 hfst
  · exact (h.sublist (List.Sublist.map Prod.fst (List.filter_sublist reg)))

theorem regWF_closeConn (reg : Reg) (tid : String)
    (h : regWF reg) : regWF (closeConn reg tid) :=
  h.sublist (List.Sublist.map Prod.fst (List.filter_sublist reg))

theorem openConn_unique (reg : Reg) (tid : String) (c c' : Nat)
    (h : (tid, c') ∈ openConn reg tid c) : c' = c := by
  rcases List.mem_cons.mp h with heq | hmem
  · exact (Prod.mk.injEq _ _ _ _ ▸ heq).2
  · have := List.of_mem_filter hmem
    simp at this

theorem send_status_absent (env : Env) (s : PState) (tid m : String)
    (p : Option Nat) (h : lookupConn s.reg tid = none) :
    send_status env s tid m p = s := by
  simp [send_status, h]

theorem send_status_delivered (env : Env) (s : PState) (tid m : String)
    (p : Option Nat) (c : Nat) (h : lookupConn s.reg tid = some c)
    (hok : env.sendOk c = true) :
    send_status env s tid m p = { s with sent := s.sent ++ [⟨tid, m, p⟩] } := by
  simp [send_status, h, hok]

theorem send_status_dropped (env : Env) (s : PState) (tid m : String)
    (p : Option Nat) (c : Nat) (h : lookupConn s.reg tid = some c)
    (hok : env.sendOk c = false) :
    send_status env s tid m p = { s with reg := closeConn s.reg tid } := by
  simp [send_status, h, hok]

theorem send_status_files (env : Env) (s : PState) (tid m : String)
    (p : Option Nat) : (send_status env s tid m p).files = s.files := by
  unfold send_status
  rcases h : lookupConn s.reg tid with _ | c
  · rfl
  · by_cases hok : env.sendOk c <;> simp [hok]

theorem send_status_stagesRun (env : Env) (s : PState) (tid m : String)
    (p : Option Nat) : (send_status env s tid m p).stagesRun = s.stagesRun := by
  unfold send_status
  rcases h : lookupConn s.reg tid with _ | c
  · rfl
  · by_cases hok : env.sendOk c <;> simp [hok]

theorem fileAt_filter_other (files : List (String × FileKind)) (q p : String)
    (h : p ≠ q) :
    fileAt (files.filter (fun e => e.1 ≠ q)) p = fileAt files p := by
  have hqp : q ≠ p := fun hc => h hc.symm
  induction files with
  | nil => rfl
  | cons hd tl ih =>
    obtain ⟨r, k⟩ := hd
    rw [List.filter_cons]
    simp only [ne_eq, decide_not] at ih ⊢
    by_cases hr : r = q
    · simp [hr, fileAt_cons, hqp, ih]
    · by_cases hr' : r = p <;> simp [hr, hr', h, fileAt_cons, ih]

theorem fileAt_putFile (files : List (String × FileKind)) (q p : String)
    (k : FileKind) :
    fileAt (putFile files q k) p = if q = p then some k else fileAt files p := by
  by_cases h : q = p
  · simp [putFile, fileAt_cons, h]
  · rw [putFile, fileAt_cons, if_neg h, if_neg h]
    exact fileAt_filter_other files q p (fun hc => h hc.symm)

theorem progressSeq_nil : progressSeq [] = [] := rfl

theorem progressSeq_cons_some (tid m : String) (p : Nat) (l : List Msg) :
    progressSeq (⟨tid, m, some p⟩ :: l) = p :: progressSeq l := rfl

theorem progressSeq_cons_none (tid m : String) (l : List Msg) :
    progressSeq (⟨tid, m, none⟩ :: l) = progressSeq l := rfl

theorem progressSeq_append (l₁ l₂ : List Msg) :
    progressSeq (l₁ ++ l₂) = progressSeq l₁ ++ progressSeq l₂ :=
  List.filterMap_append l₁ l₂ Msg.progress

theorem replaceAllFuel_of_not_contains (p r : List Char) :
    ∀ (fuel : Nat) (s : List Char), containsSub s p = false →
      replaceAllFuel p r fuel s = s := by
  intro fuel
  induction fuel with
  | zero => intro s _; rfl
  | succ f ih =>
    intro s hs
    cases s with
    | nil => rfl
    | cons c rest =>
      rw [containsSub] at hs
      simp only [Bool.or_eq_false_iff] at hs
      rw [replaceAllFuel, if_neg (fun hpre => by rw [hpre.2] at hs; simp at hs)]
      rw [ih rest hs.2]

theorem replaceAll_of_not_contains (s p r : List Char)
    (h : containsSub s p = false) : replaceAll s p r = s :=
  replaceAllFuel_of_not_contains p r s.length s h

theorem containsSub_nil_pat (t : List Char) : containsSub t [] = true := by
  cases t <;> simp [containsSub, List.isPrefixOf]

theorem isPrefixOf_append_right (p : List Char) :
    ∀ (s t : List Char), p.isPrefixOf s = true → p.isPrefixOf (s ++ t) = true := by
  induction p with
  | nil => intro s t _; simp [List.isPrefixOf]
  | cons a as ih =>
    intro s t h
    cases s with
    | nil => simp [List.isPrefixOf] at h
    | cons b bs =>
      simp only [List.isPrefixOf, List.cons_append, Bool.and_eq_true, beq_iff_eq]
        at h ⊢
      exact ⟨h.1, ih bs t h.2⟩

theorem containsSub_append_left (s t p : List Char)
    (h : containsSub s p = true) : containsSub (s ++ t) p = true := by
  induction s with
  | nil =>
    rw [containsSub] at h
    have hp : p = [] := by
      cases p with
      | nil => rfl
      | cons a b => simp [List.isPrefixOf] at h
    subst hp
    rw [List.nil_append]
    exact containsSub_nil_pat t
  | cons c rest ih =>
    rw [containsSub] at h
    rw [List.cons_append, containsSub]
    rcases Bool.or_eq_true_iff.mp h with h1 | h2
    · have h1' := isPrefixOf_append_right p (c :: rest) t h1
      rw [List.cons_append] at h1'
      rw [h1']
      simp
    · rw [ih h2]
      simp

theorem containsSub_prepend_false (pre s : List Char) (ph : Char)
    (pt : List Char) (hhead : ph ∉ pre)
    (h : containsSub s (ph :: pt) = false) :
    containsSub (pre ++ s) (ph :: pt) = false := by
  induction pre with
  | nil => simpa using h
  | cons c pre' ih =>
    have hc : ¬ (ph = c) := fun hc => hhead (hc ▸ List.mem_cons_self c pre')
    rw [List.cons_append, containsSub]
    have h1 : (ph :: pt).isPrefixOf (c :: (pre' ++ s)) = false := by
      simp [List.isPrefixOf, hc]
    rw [h1, Bool.false_or]
    exact ih (fun hm => hhead (List.mem_cons_of_mem _ hm))

theorem segProgress_bounds (n i : Nat) (hn : 1 ≤ n) (hi : i < n) :
    55 ≤ segProgress n i ∧ segProgress n i < 70 := by
  unfold segProgress
  refine ⟨Nat.le_add_right _ _, ?_⟩
  have h15 : i * 15 / n < 15 := Nat.div_lt_of_lt_mul (by omega)
  omega

theorem segProgress_mono (n i : Nat) : segProgress n i ≤ segProgress n (i + 1) := by
  unfold segProgress
  exact Nat.add_le_add_left (Nat.div_le_div_right (by omega)) 55

theorem chain'_segProgress (n : Nat) :
    List.Chain' (· ≤ ·) ((List.range n).map (segProgress n)) := by
  rw [List.chain'_map]
  cases n with
  | zero => simp
  | succ m =>
    rw [List.chain'_range_succ]
    intro i _
    exact segProgress_mono (m + 1) i

theorem progressSeq_segMsgs (tid : String) (n : Nat) :
    ∀ (segs : List String) (i : Nat),
      progressSeq (segMsgs tid n segs i)
        = (List.range segs.length).map (fun j => segProgress n (i + j)) := by
  intro segs
  induction segs with
  | nil => intro i; simp [segMsgs, progressSeq]
  | cons seg rest ih =>
    intro i
    rw [segMsgs, progressSeq_cons_some, ih (i + 1), List.length_cons,
      List.range_succ_eq_map]
    simp only [List.map_cons, List.map_map]
    refine congrArg₂ _ (by rw [Nat.add_zero]) (List.map_congr_left ?_)
    intro j _
    show segProgress n (i + 1 + j) = segProgress n (i + (j + 1))
    rw [Nat.add_assoc, Nat.add_comm 1 j]

theorem length_segMsgs (tid : String) (n : Nat) :
    ∀ (segs : List String) (i : Nat), (segMsgs tid n segs i).length = segs.length := by
  intro segs
  induction segs with
  | nil => intro i; rfl
  | cons seg rest ih => intro i; rw [segMsgs]; simp [ih]

theorem save_uploaded_video_trace (env : Env) (tid filename : String)
    (s : PState) (c : Nat) (hc : lookupConn s.reg tid = some c)
    (hok : env.sendOk c = true) (hsave : env.saveOk = true) :
    save_uploaded_video env tid filename s =
      .ok { reg := s.reg
            files := putFile s.files (videoPath filename) .video
            sent := s.sent ++ [⟨tid, "Uploading video...", some 10⟩,
              ⟨tid, "✅ Video uploaded successfully.", some 20⟩]
            stagesRun := s.stagesRun ++ ["save_uploaded_video"] } () := by
  simp [save_uploaded_video, send_status, hc, hok, hsave]

theorem extract_audio_trace (env : Env) (tid filename : String)
    (s : PState) (c : Nat) (hc : lookupConn s.reg tid = some c)
    (hok : env.sendOk c = true) (hext : env.extractOk = true) :
    extract_audio env tid filename s =
      .ok { reg := s.reg
            files := putFile s.files (audioPath filename) .audio
            sent := s.sent ++ [⟨tid, "Extracting audio from video...", some 30⟩,
              ⟨tid, "✅ Audio extraction complete.", some 50⟩]
            stagesRun := s.stagesRun ++ ["extract_audio"] } () := by
  simp [extract_audio, send_status, hc, hok, hext]

theorem transLoop_trace (env : Env) (tid : String) (n c : Nat)
    (hok : env.sendOk c = true) :
    ∀ (segs : List String) (i : Nat) (s : PState),
      lookupConn s.reg tid = some c →
      transLoop env tid n segs i s =
        { s with sent := s.sent ++ segMsgs tid n segs i } := by
  intro segs
  induction segs with
  | nil => intro i s _; simp [transLoop, segMsgs]
  | cons seg rest ih =>
    intro i s hc
    rw [transLoop, send_status_delivered env s tid _ _ c hc hok,
      ih (i + 1) _ (by simpa using hc), segMsgs]
    simp

theorem transcribe_audio_trace (env : Env) (tid : String)
    (s : PState) (c : Nat) (hc : lookupConn s.reg tid = some c)
    (hok : env.sendOk c = true) (htr : env.transcribeOk = true) :
    transcribe_audio env tid s =
      .ok { reg := s.reg
            files := s.files
            sent := s.sent
              ++ [⟨tid, "🔄 Transcribing audio with Whisper...", some 55⟩]
              ++ segMsgs tid env.segments.length env.segments 0
              ++ [⟨tid, "✅ Audio transcription complete.", some 70⟩]
            stagesRun := s.stagesRun ++ ["transcribe_audio"] }
        env.transcript := by
  simp [transcribe_audio, send_status, hc, hok, htr,
    transLoop_trace env tid env.segments.length c hok]

theorem summarize_text_trace (env : Env) (tid : String)
    (s : PState) (c : Nat) (hc : lookupConn s.reg tid = some c)
    (hok : env.sendOk c = true) (hsum : env.summarizeOk = true) :
    summarize_text env tid s =
      .ok { reg := s.reg
            files := s.files
            sent := s.sent ++ [⟨tid, "📄 Generating summary...", some 80⟩,
              ⟨tid, "✅ Summary generated.", some 90⟩]
            stagesRun := s.stagesRun ++ ["summarize_text"] } env.summary := by
  simp [summarize_text, send_status, hc, hok, hsum]

theorem save_summary_as_pdf_trace (env : Env) (tid summary_md : String)
    (s : PState) (c : Nat) (hc : lookupConn s.reg tid = some c)
    (hok : env.sendOk c = true) (hrd : env.renderOk = true) :
    save_summary_as_pdf env tid summary_md s =
      .ok { reg := s.reg
            files := putFile s.files (pdfPath tid) .pdfDoc
            sent := s.sent ++ [⟨tid, "📄 Generating PDF...", some 95⟩,
              ⟨tid, "✅ PDF generation complete.", some 100⟩]
            stagesRun := s.stagesRun ++ ["save_summary_as_pdf"] } () := by
  simp [save_summary_as_pdf, send_status, hc, hok, hrd]

end Lemmas

/-- The status messages a fully successful run delivers during the
synchronous part of `process_video` (stages 1–4). -/
def successMsgs (tid : String) (env : Env) : List Msg :=
  [⟨tid, "Uploading video...", some 10⟩,
   ⟨tid, "✅ Video uploaded successfully.", some 20⟩,
   ⟨tid, "Extracting audio from video...", some 30⟩,
   ⟨tid, "✅ Audio extraction complete.", some 50⟩,
   ⟨tid, "🔄 Transcribing audio with Whisper...", some 55⟩]
  ++ segMsgs tid env.segments.length env.segments 0
  ++ [⟨tid, "✅ Audio transcription complete.", some 70⟩,
      ⟨tid, "📄 Generating summary...", some 80⟩,
      ⟨tid, "✅ Summary generated.", some 90⟩]

/-- One whole run as the client observes it: the synchronous
`process_video` call followed by the detached background rendering. -/
def fullRun (env : Env) (snaps : List Reg) (files0 : List (String × FileKind))
    (filename tid : String) : PState :=
  runBackground env tid (process_video env snaps files0 filename tid)

section RunLemmas

theorem process_video_success (env : Env) (snaps : List Reg)
    (files0 : List (String × FileKind)) (filename tid : String) (reg : Reg)
    (c : Nat) (hreg : awaitChannel snaps tid = some reg)
    (hc : lookupConn reg tid = some c) (hok : env.sendOk c = true)
    (hsave : env.saveOk = true) (hext : env.extractOk = true)
    (htr : env.transcribeOk = true) (hsum : env.summarizeOk = true) :
    process_video env snaps files0 filename tid =
      { result := .ok env.summary ("/download/" ++ tid)
        state := { reg := reg
                   files := putFile (putFile files0 (videoPath filename) .video)
                     (audioPath filename) .audio
                   sent := successMsgs tid env
                   stagesRun := ["save_uploaded_video", "extract_audio",
                     "transcribe_audio", "summarize_text"] }
        pendingRender := some env.summary
        transcript := some env.transcript
        summary := some env.summary } := by
  simp [process_video, hreg, hc, hok, hsave, hext, htr, hsum, successMsgs,
    save_uploaded_video_trace env tid filename,
    extract_audio_trace env tid filename,
    transcribe_audio_trace env tid,
    summarize_text_trace env tid]

theorem fullRun_success (env : Env) (snaps : List Reg)
    (files0 : List (String × FileKind)) (filename tid : String) (reg : Reg)
    (c : Nat) (hreg : awaitChannel snaps tid = some reg)
    (hc : lookupConn reg tid = some c) (hok : env.sendOk c = true)
    (hsave : env.saveOk = true) (hext : env.extractOk = true)
    (htr : env.transcribeOk = true) (hsum : env.summarizeOk = true)
    (hrd : env.renderOk = true) :
    fullRun env snaps files0 filename tid =
      { reg := reg
        files := putFile (putFile (putFile files0 (videoPath filename) .video)
          (audioPath filename) .audio) (pdfPath tid) .pdfDoc
        sent := successMsgs tid env
          ++ [⟨tid, "📄 Generating PDF...", some 95⟩,
              ⟨tid, "✅ PDF generation complete.", some 100⟩]
        stagesRun := ["save_uploaded_video", "extract_audio",
          "transcribe_audio", "summarize_text", "save_summary_as_pdf"] } := by
  rw [fullRun, process_video_success env snaps files0 filename tid reg c hreg
    hc hok hsave hext htr hsum]
  simp [runBackground, hc, hok, hrd,
    save_summary_as_pdf_trace env tid env.summary]

theorem transLoop_files (env : Env) (tid : String) (n : Nat) :
    ∀ (segs : List String) (i : Nat) (s : PState),
      (transLoop env tid n segs i s).files = s.files := by
  intro segs
  induction segs with
  | nil => intro i s; rfl
  | cons seg rest ih =>
    intro i s
    rw [transLoop, ih (i + 1), send_status_files]

theorem transLoop_stagesRun (env : Env) (tid : String) (n : Nat) :
    ∀ (segs : List String) (i : Nat) (s : PState),
      (transLoop env tid n segs i s).stagesRun = s.stagesRun := by
  intro segs
  induction segs with
  | nil => intro i s; rfl
  | cons seg rest ih =>
    intro i s
    rw [transLoop, ih (i + 1), send_status_stagesRun]

theorem awaitChannel_none (snaps : List Reg) (tid : String)
    (h : ∀ r ∈ snaps, lookupConn r tid = none) :
    awaitChannel snaps tid = none := by
  induction snaps with
  | nil => rfl
  | cons r rest ih =>
    rw [awaitChannel, h r (List.mem_cons_self r rest)]
    exact ih (fun r' hr' => h r' (List.mem_cons_of_mem r hr'))

/-- The success path of `process_video` does not depend on whether any
progress delivery succeeds: with all four synchronous stages succeeding,
the caller gets the summary and the download reference, rendering is
scheduled but has not run, and only the video and audio artifacts exist. -/
theorem process_video_ok (env : Env) (snaps : List Reg)
    (files0 : List (String × FileKind)) (filename tid : String) (reg : Reg)
    (hreg : awaitChannel snaps tid = some reg) (hsave : env.saveOk = true)
    (hext : env.extractOk = true) (htr : env.transcribeOk = true)
    (hsum : env.summarizeOk = true) :
    (process_video env snaps files0 filename tid).result
        = .ok env.summary ("/download/" ++ tid)
    ∧ (process_video env snaps files0 filename tid).pendingRender
        = some env.summary
    ∧ (process_video env snaps files0 filename tid).transcript
        = some env.transcript
    ∧ (process_video env snaps files0 filename tid).summary = some env.summary
    ∧ (process_video env snaps files0 filename tid).state.stagesRun
        = ["save_uploaded_video", "extract_audio", "transcribe_audio",
           "summarize_text"]
    ∧ (process_video env snaps files0 filename tid).state.files
        = putFile (putFile files0 (videoPath filename) .video)
            (audioPath filename) .audio := by
  simp [process_video, hreg, save_uploaded_video, extract_audio,
    transcribe_audio, summarize_text, hsave, hext, htr, hsum,
    send_status_stagesRun, send_status_files, transLoop_stagesRun,
    transLoop_files]

theorem process_video_save_fail (env : Env) (snaps : List Reg)
    (files0 : List (String × FileKind)) (filename tid : String) (reg : Reg)
    (hreg : awaitChannel snaps tid = some reg) (hsave : env.saveOk = false) :
    (process_video env snaps files0 filename tid).result
        = .stageError ("Failed to save video: " ++ env.saveErr)
    ∧ (process_video env snaps files0 filename tid).state.stagesRun
        = ["save_uploaded_video"]
    ∧ (process_video env snaps files0 filename tid).state.files = files0
    ∧ (process_video env snaps files0 filename tid).transcript = none
    ∧ (process_video env snaps files0 filename tid).summary = none
    ∧ (process_video env snaps files0 filename tid).pendingRender = none := by
  simp [process_video, hreg, save_uploaded_video, hsave,
    send_status_stagesRun, send_status_files]

theorem process_video_extract_fail (env : Env) (snaps : List Reg)
    (files0 : List (String × FileKind)) (filename tid : String) (reg : Reg)
    (hreg : awaitChannel snaps tid = some reg) (hsave : env.saveOk = true)
    (hext : env.extractOk = false) :
    (process_video env snaps files0 filename tid).result
        = .stageError ("Audio extraction failed: " ++ env.extractErr)
    ∧ (process_video env snaps files0 filename tid).state.stagesRun
        = ["save_uploaded_video", "extract_audio"]
    ∧ (process_video env snaps files0 filename tid).state.files
        = putFile files0 (videoPath filename) .video
    ∧ (process_video env snaps files0 filename tid).transcript = none
    ∧ (process_video env snaps files0 filename tid).summary = none
    ∧ (process_video env snaps files0 filename tid).pendingRender = none := by
  simp [process_video, hreg, save_uploaded_video, extract_audio, hsave, hext,
    send_status_stagesRun, send_status_files]

theorem process_video_transcribe_fail (env : Env) (snaps : List Reg)
    (files0 : List (String × FileKind)) (filename tid : String) (reg : Reg)
    (hreg : awaitChannel snaps tid = some reg) (hsave : env.saveOk = true)
    (hext : env.extractOk = true) (htr : env.transcribeOk = false) :
    (process_video env snaps files0 filename tid).result
        = .stageError ("Transcription failed: " ++ env.transcribeErr)
    ∧ (process_video env snaps files0 filename tid).state.stagesRun
        = ["save_uploaded_video", "extract_audio", "transcribe_audio"]
    ∧ (process_video env snaps files0 filename tid).state.files
        = putFile (putFile files0 (videoPath filename) .video)
            (audioPath filename) .audio
    ∧ (process_video env snaps files0 filename tid).transcript = none
    ∧ (process_video env snaps files0 filename tid).summary = none
    ∧ (process_video env snaps files0 filename tid).pendingRender = none := by
  simp [process_video, hreg, save_uploaded_video, extract_audio,
    transcribe_audio, hsave, hext, htr, send_status_stagesRun,
    send_status_files]

theorem process_video_summarize_fail (env : Env) (snaps : List Reg)
    (files0 : List (String × FileKind)) (filename tid : String) (reg : Reg)
    (hreg : awaitChannel snaps tid = some reg) (hsave : env.saveOk = true)
    (hext : env.extractOk = true) (htr : env.transcribeOk = true)
    (hsum : env.summarizeOk = false) :
    (process_video env snaps files0 filename tid).result
        = .stageError ("Summarization failed: " ++ env.summarizeErr)
    ∧ (process_video env snaps files0 filename tid).state.stagesRun
        = ["save_uploaded_video", "extract_audio", "transcribe_audio",
           "summarize_text"]
    ∧ (process_video env snaps files0 filename tid).state.files
        = putFile (putFile files0 (videoPath filename) .video)
            (audioPath filename) .audio
    ∧ (process_video env snaps files0 filename tid).summary = none
    ∧ (process_video env snaps files0 filename tid).pendingRender = none := by
  simp [process_video, hreg, save_uploaded_video, extract_audio,
    transcribe_audio, summarize_text, hsave, hext, htr, hsum,
    send_status_stagesRun, send_status_files, transLoop_stagesRun,
    transLoop_files]

end RunLemmas

/-- A concrete environment in which every external collaborator succeeds,
used to evaluate the theorems on closed inputs. -/
def envOkT : Env :=
  { sendOk := fun _ => true, saveOk := true, saveErr := "disk full"
    extractOk := true, extractErr := "bad codec", transcribeOk := true
    transcribeErr := "model error", segments := ["alpha", "beta", "gamma"]
    transcript := "full text", summarizeOk := true, summarizeErr := "api down"
    summary := "## Summary", renderOk := true, renderErr := "render error" }

section Claims

/-- C8: the Connection Registry holds at most one channel entry per task
identifier: `openConn` (channel open) unconditionally overwrites any
existing entry for the id and never fails, it leaves other ids untouched,
and `closeConn` (channel close) removes the entry if present and is
idempotent — closing an already-absent id changes nothing. -/
theorem C8_registry_invariant (reg : Reg) (tid tid' : String) (c c' : Nat) :
    (regWF reg → regWF (openConn reg tid c))
    ∧ (regWF reg → regWF (closeConn reg tid))
    ∧ lookupConn (openConn reg tid c) tid = some c
    ∧ (tid' ≠ tid → lookupConn (openConn reg tid c) tid' = lookupConn reg tid')
    ∧ ((tid, c') ∈ openConn reg tid c → c' = c)
    ∧ lookupConn (closeConn reg tid) tid = none
    ∧ closeConn (closeConn reg tid) tid = closeConn reg tid
    ∧ (lookupConn reg tid = none → closeConn reg tid = reg) :=
  ⟨regWF_openConn reg tid c,
   regWF_closeConn reg tid,
   lookupConn_openConn_self reg tid c,
   fun h => lookupConn_openConn_other reg tid tid' c h,
   fun h => openConn_unique reg tid c c' h,
   lookupConn_closeConn_self reg tid,
   closeConn_idem reg tid,
   fun h => closeConn_absent reg tid h⟩

theorem C8_registry_invariant_witness :
    regWF (openConn [("a", 1)] "t" 5)
    ∧ regWF (closeConn [("a", 1)] "t")
    ∧ lookupConn (openConn [("a", 1)] "t" 5) "t" = some 5
    ∧ lookupConn (openConn [("a", 1)] "t" 5) "a" = lookupConn [("a", 1)] "a"
    ∧ (5 : Nat) = 5
    ∧ lookupConn (closeConn [("a", 1)] "t") "t" = none
    ∧ closeConn (closeConn [("a", 1)] "t") "t" = closeConn [("a", 1)] "t"
    ∧ closeConn [("a", 1)] "t" = [("a", 1)] := by
  obtain ⟨h1, h2, h3, h4, h5, h6, h7, h8⟩ :=
    C8_registry_invariant [("a", 1)] "t" "a" 5 5
  exact ⟨h1 (by unfold regWF; decide), h2 (by unfold regWF; decide), h3,
    h4 (by decide), h5 (by decide), h6, h7, h8 (by decide)⟩

/-- C10: channel close deregisters by task id without checking channel
identity: after channels `c1` and then `c2` are opened for the same task
id (the second open replaces the first), the stale channel `c1`'s
disconnect handling (`active_connections.pop(task_id, None)`) removes the
id's entry, leaving no registered channel even though `c2` is still open. -/
theorem C10_stale_disconnect_clears_entry (reg : Reg) (tid : String)
    (c1 c2 : Nat) :
    lookupConn (openConn (openConn reg tid c1) tid c2) tid = some c2
    ∧ lookupConn (closeConn (openConn (openConn reg tid c1) tid c2) tid) tid
        = none :=
  ⟨lookupConn_openConn_self _ tid c2, lookupConn_closeConn_self _ tid⟩

/-- C7: the document retrieval endpoint returns a 404 not-found error
exactly when no file exists at the task's document path
`downloads/{task_id}.pdf`, and otherwise serves the file at that path with
the `application/pdf` content type. -/
theorem C7_download_not_found_iff (files : List (String × FileKind))
    (tid : String) :
    (download_pdf files tid = .notFound 404 "PDF file not found."
      ↔ fileAt files (pdfPath tid) = none)
    ∧ ∀ k, fileAt files (pdfPath tid) = some k →
        download_pdf files tid
          = .file (pdfPath tid) ("summary_" ++ tid ++ ".pdf")
              "application/pdf" := by
  constructor
  · constructor
    · intro h
      by_cases hf : (fileAt files (pdfPath tid)).isSome
      · simp [download_pdf, hf] at h
      · exact Option.not_isSome_iff_eq_none.mp hf
    · intro h
      simp [download_pdf, h]
  · intro k h
    simp [download_pdf, h]

theorem C7_download_not_found_iff_witness :
    download_pdf [] "t" = .notFound 404 "PDF file not found."
    ∧ download_pdf [("downloads/t.pdf", FileKind.pdfDoc)] "t"
        = .file (pdfPath "t") ("summary_" ++ "t" ++ ".pdf")
            "application/pdf" :=
  ⟨(C7_download_not_found_iff [] "t").1.mpr rfl,
   (C7_download_not_found_iff [("downloads/t.pdf", FileKind.pdfDoc)] "t").2
     FileKind.pdfDoc (by decide)⟩

/-- C2: if no notification channel is registered at any poll of the
bounded wait window, the submission returns the HTTP 400 "no active
WebSocket connection" error and the pipeline never starts: no stage runs,
no file is created, no status message is emitted, and no rendering is
scheduled. -/
theorem C2_no_viewer_no_side_effects (env : Env) (snaps : List Reg)
    (files0 : List (String × FileKind)) (filename tid : String)
    (h : ∀ r ∈ snaps, lookupConn r tid = none) :
    (process_video env snaps files0 filename tid).result
        = .httpError 400 "No active WebSocket connection for this task."
    ∧ (process_video env snaps files0 filename tid).state.stagesRun = []
    ∧ (process_video env snaps files0 filename tid).state.files = files0
    ∧ (process_video env snaps files0 filename tid).state.sent = []
    ∧ (process_video env snaps files0 filename tid).pendingRender = none := by
  have hn := awaitChannel_none snaps tid h
  simp [process_video, hn]

theorem C2_no_viewer_no_side_effects_witness :
    (process_video envOkT [[("x", 9)], [], [], [], [], [], []] []
        "clip.mp4" "t").result
      = .httpError 400 "No active WebSocket connection for this task."
    ∧ (process_video envOkT [[("x", 9)], [], [], [], [], [], []] []
        "clip.mp4" "t").state.stagesRun = []
    ∧ (process_video envOkT [[("x", 9)], [], [], [], [], [], []] []
        "clip.mp4" "t").state.files = []
    ∧ (process_video envOkT [[("x", 9)], [], [], [], [], [], []] []
        "clip.mp4" "t").state.sent = []
    ∧ (process_video envOkT [[("x", 9)], [], [], [], [], [], []] []
        "clip.mp4" "t").pendingRender = none :=
  C2_no_viewer_no_side_effects envOkT [[("x", 9)], [], [], [], [], [], []] []
    "clip.mp4" "t" (by decide)

/-- C4: progress reporting is best-effort and never interrupts the
pipeline: with no channel registered the update is silently dropped and
the state is untouched; with a registered channel whose delivery fails the
registry entry is removed, nothing is delivered, and no exception reaches
the caller (`send_status` is a total function); consequently a channel
closing mid-run never stops the run — with all four stages succeeding the
submission still returns its summary, whatever the delivery outcomes. -/
theorem C4_reporting_never_aborts (env : Env) (sa sb : PState)
    (tid m : String) (p : Option Nat) (c : Nat) (snaps : List Reg)
    (files0 : List (String × FileKind)) (filename : String) (reg : Reg) :
    (lookupConn sa.reg tid = none → send_status env sa tid m p = sa)
    ∧ (lookupConn sb.reg tid = some c → env.sendOk c = false →
        send_status env sb tid m p = { sb with reg := closeConn sb.reg tid }
        ∧ lookupConn (send_status env sb tid m p).reg tid = none
        ∧ (send_status env sb tid m p).sent = sb.sent)
    ∧ (awaitChannel snaps tid = some reg → env.saveOk = true →
        env.extractOk = true → env.transcribeOk = true →
        env.summarizeOk = true →
        (process_video env snaps files0 filename tid).result
          = .ok env.summary ("/download/" ++ tid)) := by
  refine ⟨fun h => send_status_absent env sa tid m p h, fun hc hnok => ?_,
    fun hreg hsave hext htr hsum =>
      (process_video_ok env snaps files0 filename tid reg hreg hsave hext htr
        hsum).1⟩
  have hs := send_status_dropped env sb tid m p c hc hnok
  refine ⟨hs, ?_, by rw [hs]⟩
  rw [hs]
  exact lookupConn_closeConn_self sb.reg tid

/-- A concrete environment whose channel deliveries always fail. -/
def envNoSend : Env := { envOkT with sendOk := fun _ => false }

theorem C4_reporting_never_aborts_witness :
    send_status envNoSend ⟨[], [], [], []⟩ "t" "hello" (some 10) = ⟨[], [], [], []⟩
    ∧ (send_status envNoSend ⟨[("t", 3)], [], [], []⟩ "t" "hello" (some 10)
          = { reg := closeConn [("t", 3)] "t", files := [], sent := []
              stagesRun := [] }
        ∧ lookupConn (send_status envNoSend ⟨[("t", 3)], [], [], []⟩ "t"
            "hello" (some 10)).reg "t" = none
        ∧ (send_status envNoSend ⟨[("t", 3)], [], [], []⟩ "t" "hello"
            (some 10)).sent = [])
    ∧ (process_video envNoSend [[("t", 3)]] [] "clip.mp4" "t").result
        = .ok envNoSend.summary ("/download/" ++ "t") := by
  obtain ⟨h1, h2, h3⟩ := C4_reporting_never_aborts envNoSend ⟨[], [], [], []⟩
    ⟨[("t", 3)], [], [], []⟩ "t" "hello" (some 10) 3 [[("t", 3)]] []
    "clip.mp4" [("t", 3)]
  exact ⟨h1 rfl, h2 rfl rfl, h3 rfl rfl rfl rfl rfl⟩

/-- C9: when the sanitized upload filename does not contain ".mp4", the
derived audio path equals the video path — `".mp4" → ".mp3"` replacement
is the identity — so a successful Audio Extraction writes its audio output
over the saved video file; the two paths can differ only when ".mp4"
occurs in the sanitized filename. -/
theorem C9_audio_overwrites_video (filename : String) (env : Env)
    (tid : String) (s : PState) (s' : PState) (u : Unit)
    (h : containsSub (sanitize_filename filename).data ".mp4".data = false)
    (heq : extract_audio env tid filename s = .ok s' u) :
    audioPath filename = videoPath filename
    ∧ fileAt s'.files (videoPath filename) = some .audio := by
  have hdata : (videoPath filename).data
      = "downloads/".data ++ (sanitize_filename filename).data := rfl
  have hpat : (".mp4".data : List Char) = '.' :: ['m', 'p', '4'] := rfl
  have hnc : containsSub (videoPath filename).data ".mp4".data = false := by
    rw [hdata, hpat]
    refine containsSub_prepend_false _ _ '.' ['m', 'p', '4'] (by decide) ?_
    rw [← hpat]
    exact h
  have hap : audioPath filename = videoPath filename := by
    rw [audioPath, replaceAll_of_not_contains _ _ _ hnc]
    rfl
  refine ⟨hap, ?_⟩
  by_cases hext : env.extractOk = true
  · simp only [extract_audio, hext, if_true] at heq
    have hfiles : s'.files = putFile s.files (audioPath filename) .audio := by
      have hs' := congrArg (fun r => match r with
        | StageResult.ok st _ => st.files
        | StageResult.error _ st => st.files) heq
      simpa [send_status_files] using hs'.symm
    rw [hfiles, hap, fileAt_putFile, if_pos rfl]
  · have hf : env.extractOk = false := by
      revert hext; cases env.extractOk <;> simp
    simp [extract_audio, hf] at heq

theorem C9_audio_overwrites_video_witness :
    audioPath "vid.avi" = videoPath "vid.avi"
    ∧ fileAt (PState.mk [("t", 3)]
        [("downloads/vid.avi", FileKind.audio)]
        [⟨"t", "Extracting audio from video...", some 30⟩,
         ⟨"t", "✅ Audio extraction complete.", some 50⟩]
        ["extract_audio"]).files (videoPath "vid.avi") = some .audio :=
  C9_audio_overwrites_video "vid.avi" envOkT "t" ⟨[("t", 3)], [], [], []⟩
    ⟨[("t", 3)], [("downloads/vid.avi", FileKind.audio)],
     [⟨"t", "Extracting audio from video...", some 30⟩,
      ⟨"t", "✅ Audio extraction complete.", some 50⟩], ["extract_audio"]⟩ ()
    (by decide) (by decide)

/-- C6: during Transcription with `n ≥ 1` segments and a live channel, the
stage emits one intermediate progress message per segment — the `i`-th
(0-based) carrying percentage `55 + ⌊(i / n) · 15⌋` — followed by the
completion message at exactly 70, and every intermediate percentage lies
in `[55, 70)`. -/
theorem C6_transcription_subprogress (env : Env) (tid : String) (s : PState)
    (c : Nat) (hc : lookupConn s.reg tid = some c)
    (hok : env.sendOk c = true) (htr : env.transcribeOk = true)
    (hn : 1 ≤ env.segments.length) :
    transcribe_audio env tid s =
      .ok { reg := s.reg, files := s.files,
            sent := s.sent
              ++ [⟨tid, "🔄 Transcribing audio with Whisper...", some 55⟩]
              ++ segMsgs tid env.segments.length env.segments 0
              ++ [⟨tid, "✅ Audio transcription complete.", some 70⟩],
            stagesRun := s.stagesRun ++ ["transcribe_audio"] } env.transcript
    ∧ (segMsgs tid env.segments.length env.segments 0).length
        = env.segments.length
    ∧ progressSeq (segMsgs tid env.segments.length env.segments 0)
        = (List.range env.segments.length).map
            (fun i => 55 + (i * 15) / env.segments.length)
    ∧ ∀ q ∈ progressSeq (segMsgs tid env.segments.length env.segments 0),
        55 ≤ q ∧ q < 70 := by
  refine ⟨transcribe_audio_trace env tid s c hc hok htr,
    length_segMsgs tid _ env.segments 0, ?_, ?_⟩
  · rw [progressSeq_segMsgs tid _ env.segments 0]
    refine List.map_congr_left (fun j _ => ?_)
    show segProgress env.segments.length (0 + j) = _
    rw [Nat.zero_add]
    rfl
  · intro q hq
    rw [progressSeq_segMsgs tid _ env.segments 0] at hq
    rcases List.mem_map.mp hq with ⟨j, hj, hqe⟩
    rw [← hqe]
    show 55 ≤ segProgress _ (0 + j) ∧ segProgress _ (0 + j) < 70
    exact segProgress_bounds env.segments.length (0 + j) hn
      (by have := List.mem_range.mp hj; omega)

theorem C6_transcription_subprogress_witness :
    transcribe_audio envOkT "t" ⟨[("t", 3)], [], [], []⟩ =
      .ok ⟨[("t", 3)], [],
        [] ++ [⟨"t", "🔄 Transcribing audio with Whisper...", some 55⟩]
           ++ segMsgs "t" envOkT.segments.length envOkT.segments 0
           ++ [⟨"t", "✅ Audio transcription complete.", some 70⟩],
        [] ++ ["transcribe_audio"]⟩ envOkT.transcript
    ∧ (segMsgs "t" envOkT.segments.length envOkT.segments 0).length
        = envOkT.segments.length
    ∧ progressSeq (segMsgs "t" envOkT.segments.length envOkT.segments 0)
        = (List.range envOkT.segments.length).map
            (fun i => 55 + (i * 15) / envOkT.segments.length)
    ∧ ∀ q ∈ progressSeq (segMsgs "t" envOkT.segments.length envOkT.segments 0),
        55 ≤ q ∧ q < 70 :=
  C6_transcription_subprogress envOkT "t" ⟨[("t", 3)], [], [], []⟩ 3
    (by decide) rfl rfl (by decide)

/-- C3: over one fully successful run with a live channel (including the
deferred Rendering stage), the delivered progress percentages are exactly
the ingest pair `10, 20`, the extraction pair `30, 50`, transcription's
`55` then its per-segment interpolations then `70`, summarization's
`80, 90`, and rendering's `95, 100`; the sequence is non-decreasing and
ends at exactly 100. -/
theorem C3_progress_monotone (env : Env) (snaps : List Reg)
    (files0 : List (String × FileKind)) (filename tid : String) (reg : Reg)
    (c : Nat) (hreg : awaitChannel snaps tid = some reg)
    (hc : lookupConn reg tid = some c) (hok : env.sendOk c = true)
    (hsave : env.saveOk = true) (hext : env.extractOk = true)
    (htr : env.transcribeOk = true) (hsum : env.summarizeOk = true)
    (hrd : env.renderOk = true) (hn : 1 ≤ env.segments.length) :
    progressSeq (fullRun env snaps files0 filename tid).sent
      = [10, 20, 30, 50, 55]
        ++ (List.range env.segments.length).map
            (segProgress env.segments.length)
        ++ [70, 80, 90, 95, 100]
    ∧ List.Chain' (· ≤ ·)
        (progressSeq (fullRun env snaps files0 filename tid).sent)
    ∧ (progressSeq (fullRun env snaps files0 filename tid).sent).getLast?
        = some 100 := by
  have hfull := fullRun_success env snaps files0 filename tid reg c hreg hc
    hok hsave hext htr hsum hrd
  have hseq : progressSeq (fullRun env snaps files0 filename tid).sent
      = [10, 20, 30, 50, 55]
        ++ (List.range env.segments.length).map
            (segProgress env.segments.length)
        ++ [70, 80, 90, 95, 100] := by
    rw [hfull]
    show progressSeq (successMsgs tid env ++ _) = _
    rw [progressSeq_append, successMsgs, progressSeq_append,
      progressSeq_append, progressSeq_segMsgs tid _ env.segments 0]
    simp [progressSeq_cons_some, progressSeq_nil]
  refine ⟨hseq, ?_, ?_⟩
  · rw [hseq]
    have hAB : List.Chain' (· ≤ ·) ([10, 20, 30, 50, 55]
        ++ (List.range env.segments.length).map
            (segProgress env.segments.length)) := by
      refine List.chain'_append.mpr
        ⟨by norm_num [List.chain'_cons], chain'_segProgress env.segments.length,
          ?_⟩
      intro x hx y hy
      have hx55 : 55 = x := by simpa using hx
      rcases List.mem_map.mp (List.mem_of_mem_head? hy) with ⟨j, hj, hje⟩
      have hb := (segProgress_bounds env.segments.length j hn
        (List.mem_range.mp hj)).1
      omega
    refine List.chain'_append.mpr
      ⟨hAB, by norm_num [List.chain'_cons], ?_⟩
    intro x hx y hy
    have hy70 : 70 = y := by simpa using hy
    rcases List.mem_append.mp (List.mem_of_mem_getLast? hx) with hxA | hxB
    · have hx55 : x ≤ 55 := by
        have : x = 10 ∨ x = 20 ∨ x = 30 ∨ x = 50 ∨ x = 55 := by simpa using hxA
        omega
      omega
    · rcases List.mem_map.mp hxB with ⟨j, hj, hje⟩
      have hb := (segProgress_bounds env.segments.length j hn
        (List.mem_range.mp hj)).2
      omega
  · rw [hseq]
    have hlast : ∀ (l : List Nat),
        (l ++ [70, 80, 90, 95, 100]).getLast? = some 100 := fun l => by
      simp [List.getLast?_append]
    exact hlast _

theorem C3_progress_monotone_witness :
    progressSeq (fullRun envOkT [[("t", 3)]] [] "clip.mp4" "t").sent
      = [10, 20, 30, 50, 55] ++ (List.range 3).map (segProgress 3)
        ++ [70, 80, 90, 95, 100]
    ∧ List.Chain' (· ≤ ·)
        (progressSeq (fullRun envOkT [[("t", 3)]] [] "clip.mp4" "t").sent)
    ∧ (progressSeq (fullRun envOkT [[("t", 3)]] [] "clip.mp4" "t").sent).getLast?
        = some 100 :=
  C3_progress_monotone envOkT [[("t", 3)]] [] "clip.mp4" "t" [("t", 3)] 3
    (by decide) (by decide) rfl rfl rfl rfl rfl rfl (by decide)

theorem fileAt_putFile_ne_pdfDoc (files : List (String × FileKind))
    (q p : String) (k : FileKind) (hk : k ≠ .pdfDoc)
    (h : fileAt files p ≠ some .pdfDoc) :
    fileAt (putFile files q k) p ≠ some .pdfDoc := by
  rw [fileAt_putFile]
  by_cases hq : q = p
  · rw [if_pos hq]
    intro hc
    exact hk (Option.some_inj.mp hc)
  · rw [if_neg hq]
    exact h

/-- C5: once Summarization completes, the submission call returns exactly
the summary text and the document reference `/download/{task_id}`;
rendering is only scheduled at that point — the rendering stage has not
executed and no rendered document exists at the document path at response
time — and the detached rendering, once it runs successfully, is what
creates the document there. -/
theorem C5_deferred_render (env : Env) (snaps : List Reg)
    (files0 : List (String × FileKind)) (filename tid : String) (reg : Reg)
    (hreg : awaitChannel snaps tid = some reg) (hsave : env.saveOk = true)
    (hext : env.extractOk = true) (htr : env.transcribeOk = true)
    (hsum : env.summarizeOk = true)
    (hpdf0 : fileAt files0 (pdfPath tid) ≠ some FileKind.pdfDoc) :
    (process_video env snaps files0 filename tid).result
        = .ok env.summary ("/download/" ++ tid)
    ∧ (process_video env snaps files0 filename tid).pendingRender
        = some env.summary
    ∧ "save_summary_as_pdf"
        ∉ (process_video env snaps files0 filename tid).state.stagesRun
    ∧ fileAt (process_video env snaps files0 filename tid).state.files
        (pdfPath tid) ≠ some FileKind.pdfDoc
    ∧ (env.renderOk = true →
        fileAt (runBackground env tid
            (process_video env snaps files0 filename tid)).files (pdfPath tid)
          = some FileKind.pdfDoc) := by
  obtain ⟨hres, hpend, -, -, hrun, hfiles⟩ := process_video_ok env snaps
    files0 filename tid reg hreg hsave hext htr hsum
  refine ⟨hres, hpend, ?_, ?_, ?_⟩
  · rw [hrun]
    intro hmem
    simp at hmem
  · rw [hfiles]
    exact fileAt_putFile_ne_pdfDoc _ _ _ _ (by simp)
      (fileAt_putFile_ne_pdfDoc _ _ _ _ (by simp) hpdf0)
  · intro hrd
    simp [runBackground, hpend, save_summary_as_pdf, hrd, send_status_files,
      fileAt_putFile]

theorem C5_deferred_render_witness :
    (process_video envOkT [[("t", 3)]] [] "clip.mp4" "t").result
        = .ok envOkT.summary ("/download/" ++ "t")
    ∧ (process_video envOkT [[("t", 3)]] [] "clip.mp4" "t").pendingRender
        = some envOkT.summary
    ∧ "save_summary_as_pdf"
        ∉ (process_video envOkT [[("t", 3)]] [] "clip.mp4" "t").state.stagesRun
    ∧ fileAt (process_video envOkT [[("t", 3)]] [] "clip.mp4" "t").state.files
        (pdfPath "t") ≠ some FileKind.pdfDoc
    ∧ fileAt (runBackground envOkT "t"
          (process_video envOkT [[("t", 3)]] [] "clip.mp4" "t")).files
        (pdfPath "t") = some FileKind.pdfDoc := by
  obtain ⟨h1, h2, h3, h4, h5⟩ := C5_deferred_render envOkT [[("t", 3)]] []
    "clip.mp4" "t" [("t", 3)] (by decide) rfl rfl rfl rfl (by decide)
  exact ⟨h1, h2, h3, h4, h5 rfl⟩

/-- C1: a failing stage aborts the run — later stage functions never
execute, the submission call returns the caught `HTTPException` detail
as a structured error message carrying the stage's name and the
underlying cause, and no transcript, summary, or rendered-document
artifact is produced; in particular an Audio Extraction failure yields a
message containing "extract" and the cause, and neither transcription nor
summarization nor rendering runs. -/
theorem C1_stage_failure_aborts (env : Env) (snaps : List Reg)
    (files0 : List (String × FileKind)) (filename tid : String) (reg : Reg)
    (hreg : awaitChannel snaps tid = some reg)
    (hpdf0 : fileAt files0 (pdfPath tid) ≠ some FileKind.pdfDoc) :
    (env.saveOk = false →
      (process_video env snaps files0 filename tid).result
          = .stageError ("Failed to save video: " ++ env.saveErr)
      ∧ (process_video env snaps files0 filename tid).state.stagesRun
          = ["save_uploaded_video"]
      ∧ (process_video env snaps files0 filename tid).transcript = none
      ∧ (process_video env snaps files0 filename tid).summary = none
      ∧ (process_video env snaps files0 filename tid).pendingRender = none
      ∧ fileAt (process_video env snaps files0 filename tid).state.files
          (pdfPath tid) ≠ some FileKind.pdfDoc)
    ∧ (env.saveOk = true → env.extractOk = false →
      (process_video env snaps files0 filename tid).result
          = .stageError ("Audio extraction failed: " ++ env.extractErr)
      ∧ containsSub ("Audio extraction failed: " ++ env.extractErr).data
          "extract".data = true
      ∧ (process_video env snaps files0 filename tid).state.stagesRun
          = ["save_uploaded_video", "extract_audio"]
      ∧ (process_video env snaps files0 filename tid).transcript = none
      ∧ (process_video env snaps files0 filename tid).summary = none
      ∧ (process_video env snaps files0 filename tid).pendingRender = none
      ∧ fileAt (process_video env snaps files0 filename tid).state.files
          (pdfPath tid) ≠ some FileKind.pdfDoc)
    ∧ (env.saveOk = true → env.extractOk = true → env.transcribeOk = false →
      (process_video env snaps files0 filename tid).result
          = .stageError ("Transcription failed: " ++ env.transcribeErr)
      ∧ (process_video env snaps files0 filename tid).state.stagesRun
          = ["save_uploaded_video", "extract_audio", "transcribe_audio"]
      ∧ (process_video env snaps files0 filename tid).transcript = none
      ∧ (process_video env snaps files0 filename tid).summary = none
      ∧ (process_video env snaps files0 filename tid).pendingRender = none
      ∧ fileAt (process_video env snaps files0 filename tid).state.files
          (pdfPath tid) ≠ some FileKind.pdfDoc)
    ∧ (env.saveOk = true → env.extractOk = true → env.transcribeOk = true →
        env.summarizeOk = false →
      (process_video env snaps files0 filename tid).result
          = .stageError ("Summarization failed: " ++ env.summarizeErr)
      ∧ (process_video env snaps files0 filename tid).state.stagesRun
          = ["save_uploaded_video", "extract_audio", "transcribe_audio",
             "summarize_text"]
      ∧ (process_video env snaps files0 filename tid).summary = none
      ∧ (process_video env snaps files0 filename tid).pendingRender = none
      ∧ fileAt (process_video env snaps files0 filename tid).state.files
          (pdfPath tid) ≠ some FileKind.pdfDoc) := by
  have hmedia : fileAt (putFile (putFile files0 (videoPath filename) .video)
      (audioPath filename) .audio) (pdfPath tid) ≠ some FileKind.pdfDoc :=
    fileAt_putFile_ne_pdfDoc _ _ _ _ (by simp)
      (fileAt_putFile_ne_pdfDoc _ _ _ _ (by simp) hpdf0)
  refine ⟨fun hsave => ?_, fun hsave hext => ?_, fun hsave hext htr => ?_,
    fun hsave hext htr hsum => ?_⟩
  · obtain ⟨h1, h2, h3, h4, h5, h6⟩ := process_video_save_fail env snaps
      files0 filename tid reg hreg hsave
    exact ⟨h1, h2, h4, h5, h6, by rw [h3]; exact hpdf0⟩
  · obtain ⟨h1, h2, h3, h4, h5, h6⟩ := process_video_extract_fail env snaps
      files0 filename tid reg hreg hsave hext
    refine ⟨h1, ?_, h2, h4, h5, h6, ?_⟩
    · have hd : ("Audio extraction failed: " ++ env.extractErr).data
          = "Audio extraction failed: ".data ++ env.extractErr.data := rfl
      rw [hd]
      exact containsSub_append_left _ _ _ (by decide)
    · rw [h3]
      exact fileAt_putFile_ne_pdfDoc _ _ _ _ (by simp) hpdf0
  · obtain ⟨h1, h2, h3, h4, h5, h6⟩ := process_video_transcribe_fail env
      snaps files0 filename tid reg hreg hsave hext htr
    exact ⟨h1, h2, h4, h5, h6, by rw [h3]; exact hmedia⟩
  · obtain ⟨h1, h2, h3, h4, h5⟩ := process_video_summarize_fail env snaps
      files0 filename tid reg hreg hsave hext htr hsum
    exact ⟨h1, h2, h4, h5, by rw [h3]; exact hmedia⟩

/-- A concrete environment whose Audio Extraction stage fails. -/
def envExtractFail : Env := { envOkT with extractOk := false }

theorem C1_stage_failure_aborts_witness :
    (process_video envExtractFail [[("t", 3)]] [] "clip.mp4" "t").result
        = .stageError ("Audio extraction failed: " ++ envExtractFail.extractErr)
    ∧ containsSub ("Audio extraction failed: "
          ++ envExtractFail.extractErr).data "extract".data = true
    ∧ (process_video envExtractFail [[("t", 3)]] [] "clip.mp4" "t").state.stagesRun
        = ["save_uploaded_video", "extract_audio"]
    ∧ (process_video envExtractFail [[("t", 3)]] [] "clip.mp4" "t").transcript
        = none
    ∧ (process_video envExtractFail [[("t", 3)]] [] "clip.mp4" "t").summary
        = none
    ∧ (process_video envExtractFail [[("t", 3)]] [] "clip.mp4" "t").pendingRender
        = none
    ∧ fileAt (process_video envExtractFail [[("t", 3)]] []
          "clip.mp4" "t").state.files (pdfPath "t") ≠ some FileKind.pdfDoc := by
  obtain ⟨-, hb, -, -⟩ := C1_stage_failure_aborts envExtractFail [[("t", 3)]]
    [] "clip.mp4" "t" [("t", 3)] (by decide) (by decide)
  exact hb rfl rfl

end Claims

end VideoSummarizer
